import Mathlib

/-!
Verification of the DNS resource-record decoding and presentation model of
`simple_lookup` (src/main.c), via a shallow embedding.

The embedding follows the C source:
  - `rr_response` mirrors `struct rr_response` (main.c lines 21-29), with the
    intrusive `next` pointer factored out: a linked list of nodes is modelled
    as a Lean `List rr_response` of the node payloads, in link order.
    `rdata` models the bytes reachable from the borrowed `rdata` pointer
    (each a `u_char`, so a `Nat` below 256); `rdlength` is the declared
    payload length, which the code stores separately from the pointer.
  - `rr_response_new` (lines 31-38) allocates the head node of a list; its
    record fields are whatever the allocator left there, so the model takes
    the arbitrary contents as a parameter.
  - `rr_response_add` (lines 47-57) walks to the tail and links one node,
    i.e. appends to the list.
  - `rr_print_one` / `rr_pretty_print_all` (lines 59-101) mirror the
    renderer: the output of the `printf` calls is modelled as the emitted
    string. The loop starts after skipping the first node (line 67).
  - `rr_response_parse` (lines 103-144) walks answer indices `0..ancount`.
    The result of `ns_parserr` plus the field extractions at index `i` is
    modelled by an oracle `pr : Nat → Int × rr_response`, giving the return
    code of `ns_parserr` and the record built from the (possibly unparsed)
    `ns_rr` fields. The C code tests `r < 0` only to call `perror`; control
    flow never branches on it, and the node is appended unconditionally,
    which the model reproduces faithfully.
  - `simple_lookup_main` mirrors the exit-status logic of `main`
    (lines 178-245) over an environment of the externally determined
    outcomes (argument presence, hostname length and regex validity,
    allocation, `res_query`, `ns_initparse`, answer count). The checks at
    lines 188-190 (oversized hostname) and 233-235 (zero answers) call
    `perror` without returning, so they do not affect the status.
-/

/-- `ns_t_a` from arpa/nameser.h: the A (IPv4 address) record type code. -/
def ns_t_a : Int := 1

/-- `ns_t_cname` from arpa/nameser.h: the CNAME record type code. -/
def ns_t_cname : Int := 5

/-- One decoded resource record: the payload fields of `struct rr_response`
(main.c lines 21-29). `class` is a Lean keyword, hence `class_`. -/
structure rr_response where
  type : Int
  class_ : Int
  ttl : Nat
  rdlength : Nat
  rdata : List Nat
  deriving DecidableEq

/-- `rr_response_new` (main.c lines 31-38): allocates the head node of a
list. `malloc` does not initialise the record fields, so the model is
parameterised by the arbitrary record contents `junk` of the fresh node. -/
def rr_response_new (junk : rr_response) : List rr_response := [junk]

/-- `rr_response_add` (main.c lines 47-57): walks `next` links to the tail
node and links the new node there, i.e. appends it to the list. -/
def rr_response_add (l : List rr_response) (n : rr_response) : List rr_response :=
  l ++ [n]

/-- One digit of `printf`-style lowercase hexadecimal. -/
def hexDigit (n : Nat) : Char :=
  if n < 10 then Char.ofNat (48 + n) else Char.ofNat (87 + n)

/-- `printf("%02x", b)` for a `u_char` value `b < 256`: exactly two
lowercase hexadecimal digits, zero-padded. -/
def hex2 (b : Nat) : String :=
  String.mk [hexDigit (b / 16), hexDigit (b % 16)]

/-- `printf("%s", p)`: the bytes at `p` printed as text up to (excluding)
the first NUL byte. -/
def cString (bs : List Nat) : String :=
  String.mk ((bs.takeWhile (fun b => b ≠ 0)).map Char.ofNat)

/-- The `switch (current->type)` of `rr_pretty_print_all` (main.c lines
79-97): the text printed for the RData field of one record, newline
included. Indexing `current->rdata[j]` is modelled by `List.getD` on the
bytes at the pointer. -/
def rr_rdata_str (r : rr_response) : String :=
  if r.type = ns_t_a then
    if r.rdlength = 4 then
      "RData: " ++ toString (r.rdata.getD 0 0) ++ "." ++ toString (r.rdata.getD 1 0)
        ++ "." ++ toString (r.rdata.getD 2 0) ++ "." ++ toString (r.rdata.getD 3 0) ++ "\n"
    else
      "Invalid A record length\n"
  else if r.type = ns_t_cname then
    "RData (CNAME): " ++ cString r.rdata ++ "\n"
  else
    "RData (unknown type): "
      ++ String.join ((List.range r.rdlength).map (fun j => hex2 (r.rdata.getD j 0) ++ " "))
      ++ "\n"

/-- The body of the print loop of `rr_pretty_print_all` (main.c lines
68-97): the text printed for one record node. -/
def rr_print_one (r : rr_response) : String :=
  "Type: " ++ toString r.type ++ " "
    ++ "Class: " ++ toString r.class_ ++ " "
    ++ "TTL: " ++ toString r.ttl ++ " "
    ++ "RDLength: " ++ toString r.rdlength ++ " "
    ++ rr_rdata_str r

/-- `rr_pretty_print_all` (main.c lines 59-101): skips the first node
(line 67) and prints each remaining node in link order. -/
def rr_pretty_print_all (l : List rr_response) : String :=
  String.join ((l.drop 1).map rr_print_one)

/-- `rr_response_parse` (main.c lines 103-144): for each `i` below
`ancount`, the record extracted at answer index `i` is appended to the
list. `pr i` is the outcome at index `i`: the `ns_parserr` return code and
the record built from the extracted fields. The code only calls `perror`
on a negative return code (lines 114-116); it neither aborts nor skips the
append, and the model reproduces that. -/
def rr_response_parse (l : List rr_response) (pr : Nat → Int × rr_response)
    (ancount : Nat) : List rr_response :=
  (List.range ancount).foldl (fun acc i => rr_response_add acc (pr i).2) l

/-- The externally determined outcomes that drive the control flow of
`main` (main.c lines 178-245). -/
structure lookup_env where
  argc_ge_2 : Bool
  hostname_len : Nat
  hostname_valid : Bool
  alloc_ok : Bool
  query_ok : Bool
  initparse_ok : Bool
  ancount : Nat
  deriving DecidableEq

/-- The exit status of `main` (main.c lines 178-245). The oversized
hostname check (lines 188-190) and the zero-answer check (lines 233-235)
call `perror` without returning, so neither affects the status; all other
checks return 1 on failure, and the final path returns 0. -/
def simple_lookup_main (e : lookup_env) : Nat :=
  if e.argc_ge_2 = false then 1
  else if e.hostname_valid = false then 1
  else if e.alloc_ok = false then 1
  else if e.query_ok = false then 1
  else if e.initparse_ok = false then 1
  else 0

/-- Unfolding of `rr_response_parse`: the loop appends the extracted
record of each index `0..n` in order after the initial list. -/
theorem rr_response_parse_eq (l : List rr_response) (pr : Nat → Int × rr_response)
    (n : Nat) :
    rr_response_parse l pr n = l ++ (List.range n).map (fun i => (pr i).2) := by
  induction n with
  | zero => simp [rr_response_parse]
  | succ k ih =>
    unfold rr_response_parse at ih ⊢
    rw [List.range_succ, List.foldl_append, ih]
    simp [rr_response_add]

/-- Indexing a list by `getD` over the range of its length is the same as
mapping over the list itself. -/
lemma range_map_getD {α β : Type} (bs : List α) (d : α) (f : α → β) :
    (List.range bs.length).map (fun j => f (bs.getD j d)) = bs.map f := by
  induction bs with
  | nil => simp
  | cons b t ih =>
    rw [List.length_cons, List.range_succ_eq_map, List.map_cons, List.map_map]
    simp only [Function.comp_def, List.getD_cons_zero, List.getD_cons_succ]
    rw [ih, List.map_cons]

/-- `takeWhile (· ≠ 0)` of a NUL-free prefix followed by a NUL byte is
exactly that prefix. -/
lemma takeWhile_ne_zero_append (pre rest : List Nat) (h : ∀ b ∈ pre, b ≠ 0) :
    (pre ++ 0 :: rest).takeWhile (fun b => b ≠ 0) = pre := by
  induction pre with
  | nil => simp [List.takeWhile]
  | cons b t ih =>
    have hb : b ≠ 0 := h b (by simp)
    have ih2 := ih (fun x hx => h x (by simp [hx]))
    simp only [List.cons_append, List.takeWhile_cons]
    simp [hb]
    simpa using ih2

/-- Arbitrary contents of the uninitialised head node made by
`rr_response_new` in `main` (main.c line 237). -/
def rr_sentinel : rr_response := ⟨0, 0, 0, 0, []⟩

/-- The record built from the fields of an `ns_rr` that `ns_parserr`
failed to fill in (main.c lines 111-139): arbitrary contents. -/
def rr_garbage : rr_response := ⟨2, 3, 5, 2, [1, 2]⟩

/-- Extraction oracle where `ns_parserr` fails (returns -1) at every
index, leaving arbitrary fields in the `ns_rr`. -/
def pr_fail : Nat → Int × rr_response := fun _ => (-1, rr_garbage)

/-- Extraction oracle where `ns_parserr` succeeds at every index,
producing a record whose last data byte is the index. -/
def pr_two : Nat → Int × rr_response := fun i => (0, ⟨1, 1, 300, 4, [192, 0, 2, i]⟩)

/-- A `main` run whose hostname is oversized (300 characters, regex-valid)
and whose successfully parsed response declares zero answers. -/
def lookup_env_bug : lookup_env := ⟨true, 300, true, true, true, true, 0⟩

/-- C1: the claim says that when extraction fails at index `i < N` the
decode fails with a `DecodeError`, aborts, appends no record for index
`i`, and no RecordList reaches the renderer. The code does none of this:
with `ancount = 1` and `ns_parserr` returning -1 at index 0, a record
built from the unparsed `ns_rr` fields is still appended, and
`rr_pretty_print_all` still receives the list and renders that record. -/
theorem rr_parse_failure_still_appends :
    (rr_response_parse (rr_response_new rr_sentinel) pr_fail 1).drop 1 = [rr_garbage]
    ∧ rr_pretty_print_all (rr_response_parse (rr_response_new rr_sentinel) pr_fail 1)
        = rr_print_one rr_garbage
    ∧ (pr_fail 0).1 < 0 := by
  refine ⟨rfl, by decide, by decide⟩

/-- C2: if every extraction below the declared answer count `n` succeeds
(`ns_parserr` returns a non-negative code), the record list built by
`rr_response_parse` contains exactly `n` records after the head node. -/
theorem rr_response_parse_count (sent : rr_response) (pr : Nat → Int × rr_response)
    (n : Nat) (_hok : ∀ i, i < n → 0 ≤ (pr i).1) :
    ((rr_response_parse (rr_response_new sent) pr n).drop 1).length = n := by
  rw [rr_response_parse_eq]
  simp [rr_response_new]

/-- Witness for C2 at a concrete successful two-answer decode. -/
theorem rr_response_parse_count_witness :
    ((rr_response_parse (rr_response_new rr_sentinel) pr_two 2).drop 1).length = 2 :=
  rr_response_parse_count rr_sentinel pr_two 2 (fun _ _ => le_refl 0)

/-- C3: on the happy path (every extraction succeeds), the record list
built by `rr_response_parse` is exactly the extracted records `r0..r(n-1)`
in extraction order, with no reordering and no drops. -/
theorem rr_response_parse_order (sent : rr_response) (pr : Nat → Int × rr_response)
    (n : Nat) (_hok : ∀ i, i < n → 0 ≤ (pr i).1) :
    (rr_response_parse (rr_response_new sent) pr n).drop 1
      = (List.range n).map (fun i => (pr i).2) := by
  rw [rr_response_parse_eq]
  simp [rr_response_new]

/-- Witness for C3 at a concrete successful two-answer decode with
distinguishable records. -/
theorem rr_response_parse_order_witness :
    (rr_response_parse (rr_response_new rr_sentinel) pr_two 2).drop 1
      = [⟨1, 1, 300, 4, [192, 0, 2, 0]⟩, ⟨1, 1, 300, 4, [192, 0, 2, 1]⟩] := by
  rw [rr_response_parse_order rr_sentinel pr_two 2 (fun _ _ => le_refl 0)]
  rfl

/-- C4: a record of type A with `rdlength = 4` and data bytes
`b0 b1 b2 b3` renders its data field as dotted-decimal `b0.b1.b2.b3`; in
particular `[93, 184, 216, 34]` renders as `93.184.216.34`. -/
theorem rr_a_record_render :
    (∀ (cl : Int) (tt : Nat) (b0 b1 b2 b3 : Nat),
        rr_rdata_str ⟨ns_t_a, cl, tt, 4, [b0, b1, b2, b3]⟩
          = "RData: " ++ toString b0 ++ "." ++ toString b1 ++ "."
              ++ toString b2 ++ "." ++ toString b3 ++ "\n")
    ∧ rr_rdata_str ⟨ns_t_a, 1, 300, 4, [93, 184, 216, 34]⟩ = "RData: 93.184.216.34\n" := by
  constructor
  · intro cl tt b0 b1 b2 b3
    simp [rr_rdata_str]
  · decide

/-- C5: the claim says the program exits non-zero on any failure,
including an oversized hostname and a zero-answer response. The code only
calls `perror` in those two cases (main.c lines 188-190 and 233-235)
without returning: a run with a 300-character hostname and a successfully
parsed zero-answer response exits with status 0. -/
theorem simple_lookup_main_zero_on_failures :
    simple_lookup_main lookup_env_bug = 0
    ∧ 253 < lookup_env_bug.hostname_len
    ∧ lookup_env_bug.ancount = 0 := by decide

/-- C6: a record of type A whose `rdlength` is not 4 renders the explicit
invalid-length marker, and its rendering is independent of the data bytes
(no data byte is read at all in that branch). -/
theorem rr_a_record_invalid_length (cl : Int) (tt len : Nat) (bs bs' : List Nat)
    (hlen : len ≠ 4) :
    rr_rdata_str ⟨ns_t_a, cl, tt, len, bs⟩ = "Invalid A record length\n"
    ∧ rr_rdata_str ⟨ns_t_a, cl, tt, len, bs⟩ = rr_rdata_str ⟨ns_t_a, cl, tt, len, bs'⟩ := by
  constructor <;> simp [rr_rdata_str, hlen]

/-- Witness for C6 at the spec's example: type A, `rdlength = 6`. -/
theorem rr_a_record_invalid_length_witness :
    rr_rdata_str ⟨ns_t_a, 1, 300, 6, [93, 184, 216, 34, 1, 2]⟩ = "Invalid A record length\n" :=
  (rr_a_record_invalid_length 1 300 6 [93, 184, 216, 34, 1, 2] [] (by decide)).1

/-- C7 counterexample: for a record of type 99 with data `[0x01, 0xAB]`,
the code prints `01 ab ` with a trailing space after the last byte
(`printf("%02x ", ...)` per byte, main.c line 94), so the data field is
not the claimed `01 ab`. -/
theorem rr_hex_dump_trailing_space :
    rr_rdata_str ⟨99, 1, 300, 2, [1, 171]⟩ = "RData (unknown type): 01 ab \n"
    ∧ rr_rdata_str ⟨99, 1, 300, 2, [1, 171]⟩ ≠ "RData (unknown type): 01 ab\n" := by
  decide

set_option maxRecDepth 4096 in
/-- C7 (amended): a record whose type is neither A nor CNAME renders
every one of its `rdlength` data bytes, in order, each as two-digit
lowercase hexadecimal followed by one space (so the bytes are
space-separated with a trailing space after the last). -/
theorem rr_hex_dump_render :
    (∀ (ty cl : Int) (tt : Nat) (bs : List Nat), ty ≠ ns_t_a → ty ≠ ns_t_cname →
        rr_rdata_str ⟨ty, cl, tt, bs.length, bs⟩
          = "RData (unknown type): "
              ++ String.join (bs.map (fun b => hex2 b ++ " ")) ++ "\n")
    ∧ (∀ b, b < 256 → (hex2 b).length = 2
        ∧ ∀ c ∈ (hex2 b).toList, c ∈ "0123456789abcdef".toList) := by
  constructor
  · intro ty cl tt bs hA hC
    simp only [rr_rdata_str, hA, hC, if_false]
    rw [range_map_getD bs 0 (fun b => hex2 b ++ " ")]
  · decide

/-- Witness for C7 at the spec's example bytes `[0x01, 0xAB]`. -/
theorem rr_hex_dump_render_witness :
    rr_rdata_str ⟨99, 1, 300, 2, [1, 171]⟩
      = "RData (unknown type): " ++ String.join ([1, 171].map (fun b => hex2 b ++ " ")) ++ "\n" :=
  rr_hex_dump_render.1 99 1 300 [1, 171] (by decide) (by decide)

/-- C8: a record of type CNAME renders its data as a NUL-aware text
string (`printf("%s", ...)`, main.c line 89): the bytes up to the first
NUL printed as text, neither a hex dump nor a dotted-decimal address. -/
theorem rr_cname_render :
    (∀ (cl : Int) (tt len : Nat) (bs : List Nat),
        rr_rdata_str ⟨ns_t_cname, cl, tt, len, bs⟩ = "RData (CNAME): " ++ cString bs ++ "\n")
    ∧ (∀ (pre rest : List Nat), (∀ b ∈ pre, b ≠ 0) →
        cString (pre ++ 0 :: rest) = String.mk (pre.map Char.ofNat)) := by
  constructor
  · intro cl tt len bs
    simp [rr_rdata_str, ns_t_a, ns_t_cname]
  · intro pre rest hpre
    unfold cString
    rw [takeWhile_ne_zero_append pre rest hpre]

/-- Witness for C8: a CNAME record with data `ab\0c` renders `ab`,
stopping at the NUL byte. -/
theorem rr_cname_render_witness :
    rr_rdata_str ⟨ns_t_cname, 1, 600, 4, [97, 98, 0, 99]⟩ = "RData (CNAME): ab\n"
    ∧ cString ([97, 98] ++ 0 :: [99]) = String.mk ([97, 98].map Char.ofNat) := by
  constructor
  · rw [rr_cname_render.1 1 600 4 [97, 98, 0, 99]]
    rfl
  · exact rr_cname_render.2 [97, 98] [99] (by decide)

/-- C9: every record's output consists of the labeled fields `Type:`,
`Class:`, `TTL:` and `RDLength:` (in that order, integer-rendered),
followed on the same line by the data field, which ends the record's
single line with the newline. -/
theorem rr_print_one_labeled_fields (r : rr_response) :
    rr_print_one r
      = "Type: " ++ toString r.type ++ " " ++ "Class: " ++ toString r.class_ ++ " "
          ++ "TTL: " ++ toString r.ttl ++ " " ++ "RDLength: " ++ toString r.rdlength ++ " "
          ++ rr_rdata_str r
    ∧ ∃ s, rr_rdata_str r = s ++ "\n" := by
  refine ⟨rfl, ?_⟩
  unfold rr_rdata_str
  split
  · split
    · exact ⟨_, rfl⟩
    · exact ⟨"Invalid A record length", rfl⟩
  · split
    · exact ⟨_, rfl⟩
    · exact ⟨_, rfl⟩

/-- C10: for a list built by one decode pass over a head node with
arbitrary contents, the rendered output is exactly the renderings of the
appended records, one per record in append order: the head node's
contents never appear (the renderer skips the first node, main.c line
67), and every appended record is rendered. -/
theorem rr_sentinel_never_rendered (junk : rr_response) (pr : Nat → Int × rr_response)
    (n : Nat) :
    rr_pretty_print_all (rr_response_parse (rr_response_new junk) pr n)
      = String.join (((List.range n).map (fun i => (pr i).2)).map rr_print_one) := by
  rw [rr_response_parse_eq]
  simp [rr_pretty_print_all, rr_response_new]
